import Mathlib

/-!
# Verification of the pmpts prompt-file mutation layer

A shallow embedding of `src/pmpts/cli.py`: the undo-capable file-mutation
layer (`add_file`, `remove_prompt`, `rename_prompt`, `perform_undo`) of a
CLI that manages a directory of prompt files.

Modelling conventions:
* A filesystem path is a `List String` of components; `root / name` is
  `root ++ [name]`, `p.parent` is `p.dropLast`, `p.name` is the last
  component.
* The filesystem state `St` is an association list from paths to file
  contents (a `String` of bytes) together with the list of directories
  created so far.  `d.mkdir(parents=True, exist_ok=True)` never fails and
  is modelled by recording the directory.
* `shutil.move` uses POSIX rename semantics (the configured default root
  is a WSL path): moving onto an existing destination file silently
  replaces it.  A move fails (raises) when its source does not exist.
  Environmental move failures (permissions, disk full, cross-device) are
  modelled by an explicit `Bool` oracle per move site: when the oracle is
  `false` the move raises and the state is unchanged.
* `time.time()` is an explicit `now : Nat` parameter; `input()`
  confirmations are an explicit `confirm : Bool` parameter (`true` iff the
  answer was `y`/`yes` after strip/lower).
* The persisted config is reduced to its `last_action` slot, an
  `Option LastAction`; `save_config` is modelled by returning the config
  value that is persisted at the end of the call.  Exception text
  interpolated into messages is abstracted to `"move error"`.
-/

/-- The required prompt-file suffix, `SUFFIX = ".prompt.md"` in the source. -/
def SUFFIX : String := ".prompt.md"

/-- Suffix test used for `str.endswith` in the source. -/
def strEndsWith (s post : String) : Bool :=
  post.data.isSuffixOf s.data

/-- `base.name` of a path: its final component (`""` for the empty path). -/
def basename (p : List String) : String :=
  p.getLast?.getD ""

/-- `p.parent`: the path without its final component. -/
def parent (p : List String) : List String :=
  p.dropLast

/-- Rendering of a path for interpolation into messages. -/
def pathStr (p : List String) : String :=
  String.intercalate "/" p

/-- The timestamp-prefixed trash name `f"{int(time.time())}_{base}"`. -/
def tname (now : Nat) (base : String) : String :=
  toString now ++ "_" ++ base

/-- Filesystem lookup in the association list of files. -/
def fsGet (fs : List (List String × String)) (p : List String) : Option String :=
  match fs with
  | [] => none
  | (q, c) :: rest => if q = p then some c else fsGet rest p

/-- Delete every binding of path `p`. -/
def fsDel (fs : List (List String × String)) (p : List String) :
    List (List String × String) :=
  match fs with
  | [] => []
  | (q, c) :: rest => if q = p then fsDel rest p else (q, c) :: fsDel rest p

/-- Bind path `p` to content `c`, replacing any previous binding. -/
def fsSet (fs : List (List String × String)) (p : List String) (c : String) :
    List (List String × String) :=
  (p, c) :: fsDel fs p

/-- Filesystem state: files (path to byte content) and created directories. -/
structure St where
  files : List (List String × String)
  dirs : List (List String)
deriving DecidableEq, Repr

/-- `d.mkdir(parents=True, exist_ok=True)`: record the directory; never fails. -/
def mkdirP (st : St) (d : List String) : St :=
  { st with dirs := d :: st.dirs }

/-- One `shutil.move(a, b)` with POSIX rename-replace semantics: fails
(`none`) when the source is missing, otherwise deletes `a` and binds `b`
to the moved content, replacing any file already at `b`. -/
def move1 (st : St) (a b : List String) : Option St :=
  match fsGet st.files a with
  | none => none
  | some c => some { st with files := fsSet (fsDel st.files a) b c }

/-- A `shutil.move` call site with its environmental-failure oracle: when
`ok` is `false` the move raises and nothing changes. -/
def moveO (ok : Bool) (st : St) (a b : List String) : Option St :=
  if ok then move1 st a b else none

/-- The `last_action` record saved in the config: a dict with an `action`
tag and per-kind optional path fields. -/
structure LastAction where
  action : String
  src : Option (List String)
  dest : Option (List String)
  trashed : Option (List String)
  old : Option (List String)
  new : Option (List String)
  overwritten_trash : Option (List String)
deriving DecidableEq, Repr

/-- The entry written by a successful `add_file`. -/
def mkAddLA (s d : List String) (ow : Option (List String)) : LastAction :=
  ⟨"add", some s, some d, none, none, none, ow⟩

/-- The entry written by a successful `remove_prompt`. -/
def mkRemoveLA (d t : List String) : LastAction :=
  ⟨"remove", none, some d, some t, none, none, none⟩

/-- The entry written by a successful `rename_prompt`. -/
def mkRenameLA (o n : List String) (ow : Option (List String)) : LastAction :=
  ⟨"rename", none, none, none, some o, some n, ow⟩

/-- Result of one operation: the `(ok, message)` pair returned to the CLI,
the filesystem afterwards, and the persisted `last_action` slot. -/
structure OpOut where
  ok : Bool
  msg : String
  st : St
  cfg : Option LastAction
deriving DecidableEq, Repr

/-- `trash_dir_for(root)`: `root/.trash`, created if absent. -/
def trash_dir_for (root : List String) : List String :=
  root ++ [".trash"]

/-- Suffix normalization: a name with `SUFFIX` appended when not already
present.  The source computes this in `add_file` (lines 59-63), in
`remove_prompt` (line 110) and in `rename_prompt` (lines 146-147). -/
def destName (base : String) : String :=
  if strEndsWith base SUFFIX then base else base ++ SUFFIX

/-- Lines 81-104 of `add_file`: the final `shutil.move(src, dest)`, the
best-effort rollback of a trashed overwritten file on failure, and the
config write on success.  `mOk` is the oracle for the final move,
`rOk` the oracle for the rollback move. -/
def addFinish (st : St) (src dest : List String)
    (ow : Option (List String)) (base : String)
    (cfg : Option LastAction) (mOk rOk : Bool) : OpOut :=
  match moveO mOk st src dest with
  | some st2 => ⟨true, "added prompt " ++ base, st2, some (mkAddLA src dest ow)⟩
  | none =>
    let st2 :=
      match ow with
      | some owp =>
        if (fsGet st.files owp).isSome then
          match moveO rOk st owp dest with
          | some s2 => s2
          | none => st
        else st
      | none => st
    ⟨false, "Failed to move: move error", st2, cfg⟩

/-- `add_file(root, src, cfg, force)` from lines 55-104.  `confirm` is the
interactive answer to the overwrite question, `now` the current unix time,
`tOk`/`mOk`/`rOk` the oracles for the trash move, the final move and the
rollback move. -/
def add_file (st : St) (root src : List String) (cfg : Option LastAction)
    (force confirm : Bool) (now : Nat) (tOk mOk rOk : Bool) : OpOut :=
  if (fsGet st.files src).isNone then
    ⟨false, "File not found: " ++ pathStr src, st, cfg⟩
  else
    let base := destName (basename src)
    let dest := root ++ [base]
    if (fsGet st.files dest).isSome then
      if !force && !confirm then
        ⟨false, "aborted", st, cfg⟩
      else
        let st1 := mkdirP st (trash_dir_for root)
        let tp := trash_dir_for root ++ [tname now base]
        match moveO tOk st1 dest tp with
        | none =>
          ⟨false, "Failed to move existing prompt to trash: move error", st1, cfg⟩
        | some st2 => addFinish st2 src dest (some tp) base cfg mOk rOk
    else
      addFinish st src dest none base cfg mOk rOk

/-- `remove_prompt(root, name, cfg, yes)` from lines 107-128.  `confirm`
is the interactive answer, `mOk` the oracle for the move to trash. -/
def remove_prompt (st : St) (root : List String) (name : String)
    (cfg : Option LastAction) (yes confirm : Bool) (now : Nat)
    (mOk : Bool) : OpOut :=
  let candidate := destName name
  let p := root ++ [candidate]
  if (fsGet st.files p).isNone then
    ⟨false, "Not found: " ++ candidate, st, cfg⟩
  else if !yes && !confirm then
    ⟨false, "aborted", st, cfg⟩
  else
    let st1 := mkdirP st (trash_dir_for root)
    let tp := trash_dir_for root ++ [tname now candidate]
    match moveO mOk st1 p tp with
    | none => ⟨false, "Failed to remove (move to trash): move error", st1, cfg⟩
    | some st2 =>
      ⟨true, "removed " ++ candidate ++ " (moved to trash)", st2,
        some (mkRemoveLA p tp)⟩

/-- Lines 168-183 of `rename_prompt`: the `shutil.move(p_old, p_new)`,
best-effort restoration of a trashed overwritten target on failure, and
the config write on success. -/
def renameFinish (st : St) (pOld pNew : List String)
    (ow : Option (List String)) (oldC newC : String)
    (cfg : Option LastAction) (mOk rOk : Bool) : OpOut :=
  match moveO mOk st pOld pNew with
  | some st2 =>
    ⟨true, "renamed " ++ oldC ++ " -> " ++ newC, st2,
      some (mkRenameLA pOld pNew ow)⟩
  | none =>
    let st2 :=
      match ow with
      | some owp =>
        if (fsGet st.files owp).isSome then
          match moveO rOk st owp pNew with
          | some s2 => s2
          | none => st
        else st
      | none => st
    ⟨false, "Failed to rename: move error", st2, cfg⟩

/-- `rename_prompt(root, old, new, cfg, force)` from lines 143-183. -/
def rename_prompt (st : St) (root : List String) (old new : String)
    (cfg : Option LastAction) (force confirm : Bool) (now : Nat)
    (tOk mOk rOk : Bool) : OpOut :=
  let oldC := destName old
  let newC := destName new
  let pOld := root ++ [oldC]
  let pNew := root ++ [newC]
  if (fsGet st.files pOld).isNone then
    ⟨false, "Not found: " ++ oldC, st, cfg⟩
  else if (fsGet st.files pNew).isSome then
    if !force && !confirm then
      ⟨false, "aborted", st, cfg⟩
    else
      let st1 := mkdirP st (trash_dir_for root)
      let tp := trash_dir_for root ++ [tname now newC]
      match moveO tOk st1 pNew tp with
      | none =>
        ⟨false, "Failed to move existing target to trash: move error", st1, cfg⟩
      | some st2 => renameFinish st2 pOld pNew (some tp) oldC newC cfg mOk rOk
  else
    renameFinish st pOld pNew none oldC newC cfg mOk rOk

/-- Lines 241-246 of `perform_undo`: the fallback that moves `dest` into
the current working directory under its basename. -/
def undoAddFallback (st : St) (dest cwd : List String)
    (cfg : Option LastAction) (fOk : Bool) : OpOut :=
  match moveO fOk st dest (cwd ++ [basename dest]) with
  | some st2 =>
    ⟨true, "moved " ++ basename dest ++ " to " ++ pathStr (cwd ++ [basename dest]),
      st2, none⟩
  | none => ⟨false, "failed to undo add: move error", st, cfg⟩

/-- Lines 230-246 of `perform_undo`: if a source path was recorded, try to
move `dest` back there (recreating its parent); a failure of that move is
swallowed (`except: pass`) and the cwd fallback runs. -/
def undoAddSrc (st : St) (dest cwd : List String) (srcOpt : Option (List String))
    (cfg : Option LastAction) (sOk fOk : Bool) : OpOut :=
  match srcOpt with
  | some s =>
    let st1 := mkdirP st (parent s)
    match moveO sOk st1 dest s with
    | some st2 => ⟨true, "moved " ++ basename dest ++ " back to " ++ pathStr s, st2, none⟩
    | none => undoAddFallback st1 dest cwd cfg fOk
  | none => undoAddFallback st dest cwd cfg fOk

/-- `perform_undo(cfg)` from lines 186-250.  `now` is the current unix
time, `cwd` the working directory, and `m1 m2 m3 m4` the oracles for, in
order: the remove-branch restore move / the add-branch restore of an
overwritten file, the move of the added file into trash, the move of
`dest` back to `src`, and the fallback move into `cwd`. -/
def perform_undo (st : St) (cfg : Option LastAction) (now : Nat)
    (cwd : List String) (m1 m2 m3 m4 : Bool) : OpOut :=
  match cfg with
  | none => ⟨false, "no action to undo", st, none⟩
  | some last =>
    if last.action = "remove" then
      let trashed := last.trashed.getD []
      let dest := last.dest.getD []
      if (fsGet st.files trashed).isNone then
        ⟨false, "trashed file not found", st, some last⟩
      else
        let st1 := mkdirP st (parent dest)
        match moveO m1 st1 trashed dest with
        | none => ⟨false, "failed to restore: move error", st1, some last⟩
        | some st2 => ⟨true, "restored " ++ basename dest, st2, none⟩
    else if last.action = "add" then
      let dest := last.dest.getD []
      if (fsGet st.files dest).isNone then
        ⟨false, "added file not found", st, some last⟩
      else
        match last.overwritten_trash with
        | some owp =>
          if (fsGet st.files owp).isSome then
            match moveO m1 st owp dest with
            | none => ⟨false, "failed to undo add: move error", st, some last⟩
            | some st1 =>
              let st2 := mkdirP st1 (trash_dir_for (parent dest))
              let tp := trash_dir_for (parent dest) ++
                [tname now (basename dest) ++ ".added"]
              match moveO m2 st2 dest tp with
              | none => ⟨false, "failed to undo add: move error", st2, some last⟩
              | some st3 =>
                ⟨true, "restored overwritten prompt and moved new added file to trash",
                  st3, none⟩
          else undoAddSrc st dest cwd last.src (some last) m3 m4
        | none => undoAddSrc st dest cwd last.src (some last) m3 m4
    else ⟨false, "unknown last action", st, some last⟩

/-! ## Basic lemmas about the filesystem model -/

theorem mkdirP_files (st : St) (d : List String) : (mkdirP st d).files = st.files := rfl

theorem mkdirP_dirs (st : St) (d : List String) : (mkdirP st d).dirs = d :: st.dirs := rfl

theorem fsGet_fsDel_self (fs : List (List String × String)) (p : List String) :
    fsGet (fsDel fs p) p = none := by
  induction fs with
  | nil => rfl
  | cons e rest ih =>
    match e with
    | (q, c) =>
      by_cases h : q = p
      · simpa [fsDel, h] using ih
      · simpa [fsDel, fsGet, h] using ih

theorem fsGet_fsDel_ne (fs : List (List String × String)) (p q : List String)
    (h : q ≠ p) : fsGet (fsDel fs p) q = fsGet fs q := by
  induction fs with
  | nil => rfl
  | cons e rest ih =>
    match e with
    | (a, c) =>
      have hpq : ¬ p = q := fun hpq => h hpq.symm
      by_cases he : a = p
      · simpa [fsDel, fsGet, he, hpq] using ih
      · by_cases hq : a = q
        · simp [fsDel, fsGet, he, hq, h]
        · simpa [fsDel, fsGet, he, hq] using ih

theorem fsGet_fsSet_self (fs : List (List String × String)) (p : List String)
    (c : String) : fsGet (fsSet fs p c) p = some c := by
  simp [fsSet, fsGet]

theorem fsGet_fsSet_ne (fs : List (List String × String)) (p q : List String)
    (c : String) (h : q ≠ p) : fsGet (fsSet fs p c) q = fsGet fs q := by
  have : p ≠ q := fun hq => h hq.symm
  simp [fsSet, fsGet, this, fsGet_fsDel_ne fs p q h]

theorem moveO_false (st : St) (a b : List String) : moveO false st a b = none := rfl

theorem moveO_true_some (st : St) (a b : List String) (c : String)
    (h : fsGet st.files a = some c) :
    moveO true st a b = some { st with files := fsSet (fsDel st.files a) b c } := by
  simp [moveO, move1, h]

theorem path1_ne_path2 (root : List String) (a b c : String) :
    root ++ [a] ≠ root ++ [b, c] := by
  intro h
  have := congrArg List.length h
  simp at this

theorem path1_inj (root : List String) (a b : String) :
    root ++ [a] = root ++ [b] ↔ a = b := by
  simp

/-! ## Claim C3: declined overwrite aborts without side effects -/

/-- C3: for every add invocation where the destination already exists, the
overwrite flag is unset and the interactive confirmation is declined, the
operation fails with the aborted error, the filesystem (in particular the
destination file) is unchanged, no trash entry is created, and the config
is untouched. -/
theorem add_decline_aborts (st : St) (root src : List String)
    (cfg : Option LastAction) (now : Nat) (tOk mOk rOk : Bool) (cs cd : String)
    (hsrc : fsGet st.files src = some cs)
    (hdest : fsGet st.files (root ++ [destName (basename src)]) = some cd) :
    add_file st root src cfg false false now tOk mOk rOk =
      ⟨false, "aborted", st, cfg⟩ := by
  simp [add_file, hsrc, hdest]

/-- Concrete instance of `add_decline_aborts`: a root holding
`n.prompt.md` and a staged source of the same name. -/
def wSt3 : St := ⟨[(["s", "n.prompt.md"], "X"), (["r", "n.prompt.md"], "Y")], []⟩

/-- Witness for C3 at a concrete state. -/
theorem add_decline_aborts_witness :
    add_file wSt3 ["r"] ["s", "n.prompt.md"] none false false 5 true true true =
      ⟨false, "aborted", wSt3, none⟩ :=
  add_decline_aborts wSt3 ["r"] ["s", "n.prompt.md"] none 5 true true true "X" "Y"
    (by decide) (by decide)

/-! ## Claim C8: suffix normalization in add -/

/-- C8: the destination name computed by `add_file` is the source basename
with `SUFFIX` appended when the basename does not already end with it, and
the basename unchanged when it does (never duplicated); a successful add
places the source content exactly at that destination. -/
theorem add_suffix_normalization (st : St) (root src : List String)
    (cfg : Option LastAction) (force confirm : Bool) (now : Nat) (tOk rOk : Bool)
    (cs : String)
    (hsrc : fsGet st.files src = some cs)
    (hdest : fsGet st.files (root ++ [destName (basename src)]) = none) :
    (add_file st root src cfg force confirm now tOk true rOk).ok = true ∧
    fsGet (add_file st root src cfg force confirm now tOk true rOk).st.files
      (root ++ [destName (basename src)]) = some cs ∧
    (strEndsWith (basename src) SUFFIX = false →
      destName (basename src) = basename src ++ SUFFIX) ∧
    (strEndsWith (basename src) SUFFIX = true →
      destName (basename src) = basename src) := by
  have h1 : moveO true st src (root ++ [destName (basename src)]) =
      some { st with
        files := fsSet (fsDel st.files src) (root ++ [destName (basename src)]) cs } :=
    moveO_true_some st src _ cs hsrc
  refine ⟨?_, ?_, ?_, ?_⟩
  · simp [add_file, hsrc, hdest, addFinish, h1]
  · simp [add_file, hsrc, hdest, addFinish, h1, fsGet_fsSet_self]
  · intro h; simp [destName, h]
  · intro h; simp [destName, h]

/-- Concrete state for the C8 witness: one staged file named `notes`. -/
def wSt8 : St := ⟨[(["s", "notes"], "X")], []⟩

/-- Witness for C8: adding `notes` to an empty root succeeds, lands at
`notes.prompt.md`, and both suffix cases of the normalization hold. -/
theorem add_suffix_normalization_witness :
    (add_file wSt8 ["r"] ["s", "notes"] none false false 5 true true true).ok = true ∧
    fsGet (add_file wSt8 ["r"] ["s", "notes"] none false false 5 true true true).st.files
      (["r"] ++ [destName (basename ["s", "notes"])]) = some "X" ∧
    (strEndsWith (basename ["s", "notes"]) SUFFIX = false →
      destName (basename ["s", "notes"]) = basename ["s", "notes"] ++ SUFFIX) ∧
    (strEndsWith (basename ["s", "notes"]) SUFFIX = true →
      destName (basename ["s", "notes"]) = basename ["s", "notes"]) :=
  add_suffix_normalization wSt8 ["r"] ["s", "notes"] none false false 5 true true "X"
    (by decide) (by decide)

/-! ## Claim C1: undo of an overwriting add

The claim says that after such an undo the overwritten original is back at
`dest` and the newly added content is preserved in trash under the
`.added` name.  The code performs the two moves in the wrong order: it
first moves the trashed original onto `dest` (replacing — and thereby
destroying — the newly added content, since the move has rename-replace
semantics), and only then moves `dest`, which now holds the restored
original, into trash under the `.added` name.  Net effect: the newly
added content is lost, `dest` no longer exists, and the original ends up
in trash — contradicting both the claim and the code's own inline comment
`# move the new added file to trash` and its success message. -/

/-- C1 (refuted, code bug): undoing an add whose log entry records an
existing `overwritten_trash` file reports success, but afterwards the
dest path no longer exists, the `.added` trash file holds the OLD
(overwritten) content rather than the newly added content, and the newly
added content `"NEW"` is nowhere in the filesystem. -/
theorem undo_add_overwrite_loses_added_content :
    (perform_undo
        ⟨[(["r", "n.prompt.md"], "NEW"), (["r", ".trash", "100_n.prompt.md"], "OLD")],
          [["r", ".trash"]]⟩
        (some (mkAddLA ["s", "n.prompt.md"] ["r", "n.prompt.md"]
          (some ["r", ".trash", "100_n.prompt.md"])))
        200 ["cwd"] true true true true).ok = true ∧
    fsGet (perform_undo
        ⟨[(["r", "n.prompt.md"], "NEW"), (["r", ".trash", "100_n.prompt.md"], "OLD")],
          [["r", ".trash"]]⟩
        (some (mkAddLA ["s", "n.prompt.md"] ["r", "n.prompt.md"]
          (some ["r", ".trash", "100_n.prompt.md"])))
        200 ["cwd"] true true true true).st.files ["r", "n.prompt.md"] = none ∧
    (perform_undo
        ⟨[(["r", "n.prompt.md"], "NEW"), (["r", ".trash", "100_n.prompt.md"], "OLD")],
          [["r", ".trash"]]⟩
        (some (mkAddLA ["s", "n.prompt.md"] ["r", "n.prompt.md"]
          (some ["r", ".trash", "100_n.prompt.md"])))
        200 ["cwd"] true true true true).st.files =
      [(["r", ".trash", "200_n.prompt.md.added"], "OLD")] := by
  decide

/-! ## Success-shape lemmas for the mutation operations -/

/-- A `remove_prompt` with confirmation granted on an existing prompt
moves it to the timestamped trash path and records the remove entry. -/
theorem remove_prompt_success (st : St) (root : List String) (name : String)
    (cfg : Option LastAction) (confirm : Bool) (now : Nat) (c : String)
    (hp : fsGet st.files (root ++ [destName name]) = some c) :
    remove_prompt st root name cfg true confirm now true =
      ⟨true, "removed " ++ destName name ++ " (moved to trash)",
        ⟨fsSet (fsDel st.files (root ++ [destName name]))
            (trash_dir_for root ++ [tname now (destName name)]) c,
          trash_dir_for root :: st.dirs⟩,
        some (mkRemoveLA (root ++ [destName name])
          (trash_dir_for root ++ [tname now (destName name)]))⟩ := by
  simp [remove_prompt, hp, moveO, move1, mkdirP]

/-- Undoing a remove entry whose trashed file exists moves it back to the
recorded dest (creating the parent directory) and clears the entry. -/
theorem undo_remove_success (st : St) (d tp : List String) (now : Nat)
    (cwd : List String) (m2 m3 m4 : Bool) (c : String)
    (h : fsGet st.files tp = some c) :
    perform_undo st (some (mkRemoveLA d tp)) now cwd true m2 m3 m4 =
      ⟨true, "restored " ++ basename d,
        ⟨fsSet (fsDel st.files tp) d c, parent d :: st.dirs⟩, none⟩ := by
  simp [perform_undo, mkRemoveLA, h, moveO, move1, mkdirP]

/-! ## Claim C2: remove then undo restores the file -/

/-- C2: for every prompt file existing under the root, remove with
confirmation granted followed by undo restores the file byte-identical at
its original path; and undoing a remove entry whose trashed file no
longer exists fails with the not-found error and changes nothing. -/
theorem remove_then_undo (st : St) (root : List String) (name : String)
    (cfg : Option LastAction) (confirm : Bool) (now now2 : Nat)
    (cwd : List String) (m2 m3 m4 n2 n3 n4 : Bool) (c : String)
    (hp : fsGet st.files (root ++ [destName name]) = some c) :
    ((remove_prompt st root name cfg true confirm now true).ok = true ∧
     (perform_undo (remove_prompt st root name cfg true confirm now true).st
        (remove_prompt st root name cfg true confirm now true).cfg
        now2 cwd true m2 m3 m4).ok = true ∧
     fsGet (perform_undo (remove_prompt st root name cfg true confirm now true).st
        (remove_prompt st root name cfg true confirm now true).cfg
        now2 cwd true m2 m3 m4).st.files (root ++ [destName name]) = some c) ∧
    (∀ (st2 : St) (d tp : List String),
      fsGet st2.files tp = none →
      perform_undo st2 (some (mkRemoveLA d tp)) now2 cwd true n2 n3 n4 =
        ⟨false, "trashed file not found", st2, some (mkRemoveLA d tp)⟩) := by
  constructor
  · rw [remove_prompt_success st root name cfg confirm now c hp]
    rw [undo_remove_success _ _ _ now2 cwd m2 m3 m4 c (fsGet_fsSet_self _ _ _)]
    refine ⟨rfl, rfl, ?_⟩
    exact fsGet_fsSet_self _ _ _
  · intro st2 d tp h
    simp [perform_undo, mkRemoveLA, h]

/-- Concrete state for the C2 witness: a root holding `a.prompt.md`. -/
def wSt2 : St := ⟨[(["r", "a.prompt.md"], "AAA")], []⟩

/-- Witness for C2: remove `a` then undo restores `a.prompt.md` with its
original content, and undoing a remove entry with a missing trashed file
fails with the not-found error. -/
theorem remove_then_undo_witness :
    ((remove_prompt wSt2 ["r"] "a" none true false 100 true).ok = true ∧
     (perform_undo (remove_prompt wSt2 ["r"] "a" none true false 100 true).st
        (remove_prompt wSt2 ["r"] "a" none true false 100 true).cfg
        200 ["cwd"] true true true true).ok = true ∧
     fsGet (perform_undo (remove_prompt wSt2 ["r"] "a" none true false 100 true).st
        (remove_prompt wSt2 ["r"] "a" none true false 100 true).cfg
        200 ["cwd"] true true true true).st.files
       (["r"] ++ [destName "a"]) = some "AAA") ∧
    (∀ (st2 : St) (d tp : List String),
      fsGet st2.files tp = none →
      perform_undo st2 (some (mkRemoveLA d tp)) 200 ["cwd"] true true true true =
        ⟨false, "trashed file not found", st2, some (mkRemoveLA d tp)⟩) :=
  remove_then_undo wSt2 ["r"] "a" none false 100 200 ["cwd"]
    true true true true true true "AAA" (by decide)

/-! ## Claim C4: undo is single-shot -/

/-- Every success path of `perform_undo` pops the `last_action` slot. -/
theorem perform_undo_ok_cfg_none (st : St) (cfg : Option LastAction) (now : Nat)
    (cwd : List String) (m1 m2 m3 m4 : Bool)
    (h : (perform_undo st cfg now cwd m1 m2 m3 m4).ok = true) :
    (perform_undo st cfg now cwd m1 m2 m3 m4).cfg = none := by
  revert h
  unfold perform_undo undoAddSrc undoAddFallback
  dsimp only
  repeat' split
  all_goals intro h
  all_goals first | rfl | simp at h

/-- C4: undo on an empty log always fails with the no-action error, and a
successful undo clears the log entry, so an immediately following second
undo invocation fails with the no-action error. -/
theorem undo_single_shot :
    (∀ (st : St) (now : Nat) (cwd : List String) (m1 m2 m3 m4 : Bool),
      perform_undo st none now cwd m1 m2 m3 m4 =
        ⟨false, "no action to undo", st, none⟩) ∧
    (∀ (st : St) (cfg : Option LastAction) (now : Nat) (cwd : List String)
        (m1 m2 m3 m4 : Bool) (now2 : Nat) (cwd2 : List String) (n1 n2 n3 n4 : Bool),
      (perform_undo st cfg now cwd m1 m2 m3 m4).ok = true →
      perform_undo (perform_undo st cfg now cwd m1 m2 m3 m4).st
          (perform_undo st cfg now cwd m1 m2 m3 m4).cfg now2 cwd2 n1 n2 n3 n4 =
        ⟨false, "no action to undo",
          (perform_undo st cfg now cwd m1 m2 m3 m4).st, none⟩) := by
  constructor
  · intro st now cwd m1 m2 m3 m4
    rfl
  · intro st cfg now cwd m1 m2 m3 m4 now2 cwd2 n1 n2 n3 n4 h
    rw [perform_undo_ok_cfg_none st cfg now cwd m1 m2 m3 m4 h]
    rfl

/-- Concrete state for the C4 witness: a trashed file and a remove entry
pointing at it, so that the first undo succeeds. -/
def wSt4 : St := ⟨[(["r", ".trash", "100_a.prompt.md"], "AAA")], []⟩

/-- The remove entry used by the C4 witness. -/
def wLa4 : LastAction := mkRemoveLA ["r", "a.prompt.md"] ["r", ".trash", "100_a.prompt.md"]

/-- Witness for C4: after a concrete successful undo of a remove, the
second undo fails with the no-action error. -/
theorem undo_single_shot_witness :
    perform_undo (perform_undo wSt4 (some wLa4) 200 ["cwd"] true true true true).st
        (perform_undo wSt4 (some wLa4) 200 ["cwd"] true true true true).cfg
        300 ["cwd"] true true true true =
      ⟨false, "no action to undo",
        (perform_undo wSt4 (some wLa4) 200 ["cwd"] true true true true).st, none⟩ :=
  undo_single_shot.2 wSt4 (some wLa4) 200 ["cwd"] true true true true
    300 ["cwd"] true true true true (by decide)

/-! ## Claim C9: undo dispatch on non-reversible entries -/

/-- A successful `rename_prompt` stores an entry whose action tag is
`"rename"`. -/
theorem rename_prompt_ok_cfg (st : St) (root : List String) (old new : String)
    (cfg : Option LastAction) (force confirm : Bool) (now : Nat) (tOk mOk rOk : Bool)
    (h : (rename_prompt st root old new cfg force confirm now tOk mOk rOk).ok = true) :
    ∃ la : LastAction,
      (rename_prompt st root old new cfg force confirm now tOk mOk rOk).cfg = some la ∧
      la.action = "rename" := by
  revert h
  unfold rename_prompt renameFinish
  dsimp only
  repeat' split
  all_goals intro h
  all_goals first | exact ⟨_, rfl, rfl⟩ | simp at h

/-- C9: undoing a log entry whose action is neither `add` nor `remove`
fails with the unknown-action error and changes nothing; in particular the
entry written by a successful rename — whose action tag is `rename` — has
no reversal path, so undoing it fails rather than reversing the rename. -/
theorem undo_unknown_action :
    (∀ (st : St) (last : LastAction) (now : Nat) (cwd : List String)
        (m1 m2 m3 m4 : Bool),
      last.action ≠ "remove" → last.action ≠ "add" →
      perform_undo st (some last) now cwd m1 m2 m3 m4 =
        ⟨false, "unknown last action", st, some last⟩) ∧
    (∀ (st : St) (root : List String) (old new : String) (cfg : Option LastAction)
        (force confirm : Bool) (now : Nat) (tOk mOk rOk : Bool)
        (now2 : Nat) (cwd : List String) (m1 m2 m3 m4 : Bool),
      (rename_prompt st root old new cfg force confirm now tOk mOk rOk).ok = true →
      (perform_undo (rename_prompt st root old new cfg force confirm now tOk mOk rOk).st
          (rename_prompt st root old new cfg force confirm now tOk mOk rOk).cfg
          now2 cwd m1 m2 m3 m4).ok = false ∧
      (perform_undo (rename_prompt st root old new cfg force confirm now tOk mOk rOk).st
          (rename_prompt st root old new cfg force confirm now tOk mOk rOk).cfg
          now2 cwd m1 m2 m3 m4).msg = "unknown last action") := by
  have base : ∀ (st : St) (last : LastAction) (now : Nat) (cwd : List String)
      (m1 m2 m3 m4 : Bool),
      last.action ≠ "remove" → last.action ≠ "add" →
      perform_undo st (some last) now cwd m1 m2 m3 m4 =
        ⟨false, "unknown last action", st, some last⟩ := by
    intro st last now cwd m1 m2 m3 m4 h1 h2
    simp [perform_undo, h1, h2]
  refine ⟨base, ?_⟩
  intro st root old new cfg force confirm now tOk mOk rOk now2 cwd m1 m2 m3 m4 h
  obtain ⟨la, hcfg, hact⟩ :=
    rename_prompt_ok_cfg st root old new cfg force confirm now tOk mOk rOk h
  rw [hcfg, base _ la now2 cwd m1 m2 m3 m4 (by rw [hact]; decide) (by rw [hact]; decide)]
  exact ⟨rfl, rfl⟩

/-- Concrete state for the C9 witness: prompts `a` and `b` both present. -/
def wSt9 : St := ⟨[(["r", "a.prompt.md"], "AAA"), (["r", "b.prompt.md"], "BBB")], []⟩

/-- Witness for C9: a corrupted-action entry fails with the unknown-action
error, and undo after a concrete successful rename also fails so. -/
theorem undo_unknown_action_witness :
    (perform_undo ⟨[], []⟩ (some (mkRenameLA ["r", "a"] ["r", "b"] none))
        5 ["cwd"] true true true true =
      ⟨false, "unknown last action", ⟨[], []⟩,
        some (mkRenameLA ["r", "a"] ["r", "b"] none)⟩) ∧
    ((perform_undo (rename_prompt wSt9 ["r"] "a" "b" none true false 100 true true true).st
        (rename_prompt wSt9 ["r"] "a" "b" none true false 100 true true true).cfg
        200 ["cwd"] true true true true).ok = false ∧
     (perform_undo (rename_prompt wSt9 ["r"] "a" "b" none true false 100 true true true).st
        (rename_prompt wSt9 ["r"] "a" "b" none true false 100 true true true).cfg
        200 ["cwd"] true true true true).msg = "unknown last action") :=
  ⟨undo_unknown_action.1 ⟨[], []⟩ (mkRenameLA ["r", "a"] ["r", "b"] none)
      5 ["cwd"] true true true true (by decide) (by decide),
   undo_unknown_action.2 wSt9 ["r"] "a" "b" none true false 100 true true true
      200 ["cwd"] true true true true (by decide)⟩

/-! ## Overwrite paths of add and rename -/

/-- A prompt path `root/name` is never equal to a trash path
`root/.trash/tn`: the component counts differ. -/
theorem dest_ne_trash (root : List String) (b t : String) :
    root ++ [b] ≠ trash_dir_for root ++ [t] := by
  intro h
  have := congrArg List.length h
  simp [trash_dir_for] at this

/-- A forced (or confirmed) `add_file` onto an existing destination
trashes the old destination content and installs the source content,
recording the add entry with the trashed path. -/
theorem add_overwrite_success (st : St) (root src : List String)
    (cfg : Option LastAction) (confirm : Bool) (now : Nat) (rOk : Bool) (cs cd : String)
    (hsrc : fsGet st.files src = some cs)
    (hdest : fsGet st.files (root ++ [destName (basename src)]) = some cd)
    (hsd : src ≠ root ++ [destName (basename src)])
    (hstp : src ≠ trash_dir_for root ++ [tname now (destName (basename src))]) :
    add_file st root src cfg true confirm now true true rOk =
      ⟨true, "added prompt " ++ destName (basename src),
        ⟨fsSet (fsDel (fsSet (fsDel st.files (root ++ [destName (basename src)]))
              (trash_dir_for root ++ [tname now (destName (basename src))]) cd) src)
            (root ++ [destName (basename src)]) cs,
          trash_dir_for root :: st.dirs⟩,
        some (mkAddLA src (root ++ [destName (basename src)])
          (some (trash_dir_for root ++ [tname now (destName (basename src))])))⟩ := by
  have h2 : fsGet (fsSet (fsDel st.files (root ++ [destName (basename src)]))
      (trash_dir_for root ++ [tname now (destName (basename src))]) cd) src = some cs := by
    rw [fsGet_fsSet_ne _ _ _ _ hstp, fsGet_fsDel_ne _ _ _ hsd, hsrc]
  simp [add_file, addFinish, moveO, move1, mkdirP, hsrc, hdest, h2]

/-- A forced (or confirmed) `rename_prompt` onto an existing target
trashes the old target content, moves the old prompt to the new name, and
records the rename entry with the trashed path. -/
theorem rename_overwrite_success (st : St) (root : List String) (old new : String)
    (cfg : Option LastAction) (confirm : Bool) (now : Nat) (rOk : Bool) (ca cb : String)
    (hold : fsGet st.files (root ++ [destName old]) = some ca)
    (hnew : fsGet st.files (root ++ [destName new]) = some cb)
    (hdiff : destName old ≠ destName new) :
    rename_prompt st root old new cfg true confirm now true true rOk =
      ⟨true, "renamed " ++ destName old ++ " -> " ++ destName new,
        ⟨fsSet (fsDel (fsSet (fsDel st.files (root ++ [destName new]))
              (trash_dir_for root ++ [tname now (destName new)]) cb)
            (root ++ [destName old]))
            (root ++ [destName new]) ca,
          trash_dir_for root :: st.dirs⟩,
        some (mkRenameLA (root ++ [destName old]) (root ++ [destName new])
          (some (trash_dir_for root ++ [tname now (destName new)])))⟩ := by
  have hop : root ++ [destName old] ≠
      trash_dir_for root ++ [tname now (destName new)] := dest_ne_trash root _ _
  have hopn : root ++ [destName old] ≠ root ++ [destName new] :=
    fun h => hdiff ((path1_inj root _ _).mp h)
  have h2 : fsGet (fsSet (fsDel st.files (root ++ [destName new]))
      (trash_dir_for root ++ [tname now (destName new)]) cb)
      (root ++ [destName old]) = some ca := by
    rw [fsGet_fsSet_ne _ _ _ _ hop, fsGet_fsDel_ne _ _ _ hopn, hold]
  simp [rename_prompt, renameFinish, moveO, move1, mkdirP, hold, hnew, h2]

/-! ## Claim C5: trashing never deletes data -/

/-- C5: for every trash operation performed by add (overwrite case),
remove, or rename (overwrite case), afterwards a file named
`{unix_timestamp}_{original_basename}` exists inside `root/.trash`
containing the original bytes, and the trash directory has been created. -/
theorem trash_never_deletes :
    (∀ (st : St) (root src : List String) (cfg : Option LastAction)
        (confirm : Bool) (now : Nat) (rOk : Bool) (cs cd : String),
      fsGet st.files src = some cs →
      fsGet st.files (root ++ [destName (basename src)]) = some cd →
      src ≠ root ++ [destName (basename src)] →
      src ≠ trash_dir_for root ++ [tname now (destName (basename src))] →
      fsGet (add_file st root src cfg true confirm now true true rOk).st.files
          (trash_dir_for root ++ [tname now (destName (basename src))]) = some cd ∧
      trash_dir_for root ∈
        (add_file st root src cfg true confirm now true true rOk).st.dirs) ∧
    (∀ (st : St) (root : List String) (name : String) (cfg : Option LastAction)
        (confirm : Bool) (now : Nat) (c : String),
      fsGet st.files (root ++ [destName name]) = some c →
      fsGet (remove_prompt st root name cfg true confirm now true).st.files
          (trash_dir_for root ++ [tname now (destName name)]) = some c ∧
      trash_dir_for root ∈
        (remove_prompt st root name cfg true confirm now true).st.dirs) ∧
    (∀ (st : St) (root : List String) (old new : String) (cfg : Option LastAction)
        (confirm : Bool) (now : Nat) (rOk : Bool) (ca cb : String),
      fsGet st.files (root ++ [destName old]) = some ca →
      fsGet st.files (root ++ [destName new]) = some cb →
      destName old ≠ destName new →
      fsGet (rename_prompt st root old new cfg true confirm now true true rOk).st.files
          (trash_dir_for root ++ [tname now (destName new)]) = some cb ∧
      trash_dir_for root ∈
        (rename_prompt st root old new cfg true confirm now true true rOk).st.dirs) := by
  refine ⟨?_, ?_, ?_⟩
  · intro st root src cfg confirm now rOk cs cd hsrc hdest hsd hstp
    rw [add_overwrite_success st root src cfg confirm now rOk cs cd hsrc hdest hsd hstp]
    refine ⟨?_, List.mem_cons_self _ _⟩
    rw [fsGet_fsSet_ne _ _ _ _ (Ne.symm (dest_ne_trash root _ _)),
      fsGet_fsDel_ne _ _ _ (Ne.symm hstp)]
    exact fsGet_fsSet_self _ _ _
  · intro st root name cfg confirm now c hp
    rw [remove_prompt_success st root name cfg confirm now c hp]
    exact ⟨fsGet_fsSet_self _ _ _, List.mem_cons_self _ _⟩
  · intro st root old new cfg confirm now rOk ca cb hold hnew hdiff
    rw [rename_overwrite_success st root old new cfg confirm now rOk ca cb hold hnew hdiff]
    refine ⟨?_, List.mem_cons_self _ _⟩
    rw [fsGet_fsSet_ne _ _ _ _ (Ne.symm (dest_ne_trash root _ _)),
      fsGet_fsDel_ne _ _ _ (Ne.symm (dest_ne_trash root _ _))]
    exact fsGet_fsSet_self _ _ _

/-- Concrete state for the C5 witness: a staged source and three prompts. -/
def wSt5 : St :=
  ⟨[(["s", "n.prompt.md"], "NEW"), (["r", "n.prompt.md"], "OLD"),
    (["r", "a.prompt.md"], "AAA"), (["r", "b.prompt.md"], "BBB")], []⟩

/-- Witness for C5 at concrete add, remove and rename invocations. -/
theorem trash_never_deletes_witness :
    (fsGet (add_file wSt5 ["r"] ["s", "n.prompt.md"] none true false 100 true true true).st.files
        (trash_dir_for ["r"] ++ [tname 100 (destName (basename ["s", "n.prompt.md"]))]) =
          some "OLD" ∧
     trash_dir_for ["r"] ∈
       (add_file wSt5 ["r"] ["s", "n.prompt.md"] none true false 100 true true true).st.dirs) ∧
    (fsGet (remove_prompt wSt5 ["r"] "a" none true false 100 true).st.files
        (trash_dir_for ["r"] ++ [tname 100 (destName "a")]) = some "AAA" ∧
     trash_dir_for ["r"] ∈ (remove_prompt wSt5 ["r"] "a" none true false 100 true).st.dirs) ∧
    (fsGet (rename_prompt wSt5 ["r"] "a" "b" none true false 100 true true true).st.files
        (trash_dir_for ["r"] ++ [tname 100 (destName "b")]) = some "BBB" ∧
     trash_dir_for ["r"] ∈
       (rename_prompt wSt5 ["r"] "a" "b" none true false 100 true true true).st.dirs) :=
  ⟨trash_never_deletes.1 wSt5 ["r"] ["s", "n.prompt.md"] none false 100 true "NEW" "OLD"
      (by decide) (by decide) (by decide) (by decide),
   trash_never_deletes.2.1 wSt5 ["r"] "a" none false 100 "AAA" (by decide),
   trash_never_deletes.2.2 wSt5 ["r"] "a" "b" none false 100 true "AAA" "BBB"
      (by decide) (by decide) (by decide)⟩

/-! ## Claim C7: rename onto an existing target with overwrite -/

/-- C7: after a successful forced rename of `old` onto an existing `new`,
the old target content is in trash under the timestamped name, the old
prompt path no longer exists, the new path holds the former old content,
and the log records a rename entry with old, new and the trashed path. -/
theorem rename_overwrite_postcondition (st : St) (root : List String)
    (old new : String) (cfg : Option LastAction) (confirm : Bool) (now : Nat)
    (rOk : Bool) (ca cb : String)
    (hold : fsGet st.files (root ++ [destName old]) = some ca)
    (hnew : fsGet st.files (root ++ [destName new]) = some cb)
    (hdiff : destName old ≠ destName new) :
    (rename_prompt st root old new cfg true confirm now true true rOk).ok = true ∧
    fsGet (rename_prompt st root old new cfg true confirm now true true rOk).st.files
        (trash_dir_for root ++ [tname now (destName new)]) = some cb ∧
    fsGet (rename_prompt st root old new cfg true confirm now true true rOk).st.files
        (root ++ [destName old]) = none ∧
    fsGet (rename_prompt st root old new cfg true confirm now true true rOk).st.files
        (root ++ [destName new]) = some ca ∧
    (rename_prompt st root old new cfg true confirm now true true rOk).cfg =
      some (mkRenameLA (root ++ [destName old]) (root ++ [destName new])
        (some (trash_dir_for root ++ [tname now (destName new)]))) := by
  have hopn : root ++ [destName old] ≠ root ++ [destName new] :=
    fun h => hdiff ((path1_inj root _ _).mp h)
  rw [rename_overwrite_success st root old new cfg confirm now rOk ca cb hold hnew hdiff]
  refine ⟨rfl, ?_, ?_, fsGet_fsSet_self _ _ _, rfl⟩
  · rw [fsGet_fsSet_ne _ _ _ _ (Ne.symm (dest_ne_trash root _ _)),
      fsGet_fsDel_ne _ _ _ (Ne.symm (dest_ne_trash root _ _))]
    exact fsGet_fsSet_self _ _ _
  · rw [fsGet_fsSet_ne _ _ _ _ hopn]
    exact fsGet_fsDel_self _ _

/-- Concrete state for the C7 witness: prompts `a` and `b` both present. -/
def wSt7 : St := ⟨[(["r", "a.prompt.md"], "AAA"), (["r", "b.prompt.md"], "BBB")], []⟩

/-- Witness for C7 at a concrete forced rename of `a` onto `b`. -/
theorem rename_overwrite_postcondition_witness :
    (rename_prompt wSt7 ["r"] "a" "b" none true false 100 true true true).ok = true ∧
    fsGet (rename_prompt wSt7 ["r"] "a" "b" none true false 100 true true true).st.files
        (trash_dir_for ["r"] ++ [tname 100 (destName "b")]) = some "BBB" ∧
    fsGet (rename_prompt wSt7 ["r"] "a" "b" none true false 100 true true true).st.files
        (["r"] ++ [destName "a"]) = none ∧
    fsGet (rename_prompt wSt7 ["r"] "a" "b" none true false 100 true true true).st.files
        (["r"] ++ [destName "b"]) = some "AAA" ∧
    (rename_prompt wSt7 ["r"] "a" "b" none true false 100 true true true).cfg =
      some (mkRenameLA (["r"] ++ [destName "a"]) (["r"] ++ [destName "b"])
        (some (trash_dir_for ["r"] ++ [tname 100 (destName "b")]))) :=
  rename_overwrite_postcondition wSt7 ["r"] "a" "b" none false 100 true "AAA" "BBB"
    (by decide) (by decide) (by decide)

/-! ## Claim C6: rollback guarantee for add -/

/-- C6: when the final move of an add fails after the existing destination
was moved to trash, the operation reports only the original move error
(independently of whether the rollback move also fails), the config is
untouched, the new content is still at the source path, and the old
content remains reachable: back at the destination when the rollback move
succeeds, still at the trash path when the rollback move also fails. -/
theorem add_rollback (st : St) (root src : List String) (cfg : Option LastAction)
    (confirm : Bool) (now : Nat) (rOk : Bool) (cs cd : String)
    (hsrc : fsGet st.files src = some cs)
    (hdest : fsGet st.files (root ++ [destName (basename src)]) = some cd)
    (hsd : src ≠ root ++ [destName (basename src)])
    (hstp : src ≠ trash_dir_for root ++ [tname now (destName (basename src))]) :
    (add_file st root src cfg true confirm now true false rOk).ok = false ∧
    (add_file st root src cfg true confirm now true false rOk).msg =
      "Failed to move: move error" ∧
    (add_file st root src cfg true confirm now true false rOk).cfg = cfg ∧
    fsGet (add_file st root src cfg true confirm now true false rOk).st.files src =
      some cs ∧
    (rOk = true →
      fsGet (add_file st root src cfg true confirm now true false rOk).st.files
        (root ++ [destName (basename src)]) = some cd) ∧
    (rOk = false →
      fsGet (add_file st root src cfg true confirm now true false rOk).st.files
        (trash_dir_for root ++ [tname now (destName (basename src))]) = some cd) := by
  have hX : fsGet (fsSet (fsDel st.files (root ++ [destName (basename src)]))
      (trash_dir_for root ++ [tname now (destName (basename src))]) cd)
      (trash_dir_for root ++ [tname now (destName (basename src))]) = some cd :=
    fsGet_fsSet_self _ _ _
  cases rOk
  case false =>
    have key : add_file st root src cfg true confirm now true false false =
        ⟨false, "Failed to move: move error",
          ⟨fsSet (fsDel st.files (root ++ [destName (basename src)]))
              (trash_dir_for root ++ [tname now (destName (basename src))]) cd,
            trash_dir_for root :: st.dirs⟩, cfg⟩ := by
      simp [add_file, addFinish, moveO, move1, mkdirP, hsrc, hdest, hX]
    rw [key]
    refine ⟨rfl, rfl, rfl, ?_, by simp, fun _ => hX⟩
    rw [fsGet_fsSet_ne _ _ _ _ hstp, fsGet_fsDel_ne _ _ _ hsd]
    exact hsrc
  case true =>
    have key : add_file st root src cfg true confirm now true false true =
        ⟨false, "Failed to move: move error",
          ⟨fsSet (fsDel (fsSet (fsDel st.files (root ++ [destName (basename src)]))
                (trash_dir_for root ++ [tname now (destName (basename src))]) cd)
              (trash_dir_for root ++ [tname now (destName (basename src))]))
              (root ++ [destName (basename src)]) cd,
            trash_dir_for root :: st.dirs⟩, cfg⟩ := by
      simp [add_file, addFinish, moveO, move1, mkdirP, hsrc, hdest, hX]
    rw [key]
    refine ⟨rfl, rfl, rfl, ?_, fun _ => fsGet_fsSet_self _ _ _, by simp⟩
    rw [fsGet_fsSet_ne _ _ _ _ hsd, fsGet_fsDel_ne _ _ _ hstp,
      fsGet_fsSet_ne _ _ _ _ hstp, fsGet_fsDel_ne _ _ _ hsd]
    exact hsrc

/-- Concrete state for the C6 witness: a staged source colliding with an
existing prompt. -/
def wSt6 : St := ⟨[(["s", "n.prompt.md"], "NEW"), (["r", "n.prompt.md"], "OLD")], []⟩

/-- Witness for C6 with a failing final move and a succeeding rollback. -/
theorem add_rollback_witness :
    (add_file wSt6 ["r"] ["s", "n.prompt.md"] none true false 100 true false true).ok =
      false ∧
    (add_file wSt6 ["r"] ["s", "n.prompt.md"] none true false 100 true false true).msg =
      "Failed to move: move error" ∧
    (add_file wSt6 ["r"] ["s", "n.prompt.md"] none true false 100 true false true).cfg =
      none ∧
    fsGet (add_file wSt6 ["r"] ["s", "n.prompt.md"] none true false 100 true false true).st.files
      ["s", "n.prompt.md"] = some "NEW" ∧
    (true = true →
      fsGet (add_file wSt6 ["r"] ["s", "n.prompt.md"] none true false 100 true false true).st.files
        (["r"] ++ [destName (basename ["s", "n.prompt.md"])]) = some "OLD") ∧
    (true = false →
      fsGet (add_file wSt6 ["r"] ["s", "n.prompt.md"] none true false 100 true false true).st.files
        (trash_dir_for ["r"] ++ [tname 100 (destName (basename ["s", "n.prompt.md"]))]) =
          some "OLD") :=
  add_rollback wSt6 ["r"] ["s", "n.prompt.md"] none false 100 true "NEW" "OLD"
    (by decide) (by decide) (by decide) (by decide)

/-! ## Claim C10: failures leave the persisted config unchanged -/

/-- C10: the `last_action` slot is only written by a successful mutation
and only cleared by a successful undo; every failure return of add,
remove, rename, or undo leaves the persisted config — including any
existing entry — exactly as it was, so a failed undo can be retried. -/
theorem failure_preserves_config :
    (∀ (st : St) (root src : List String) (cfg : Option LastAction)
        (force confirm : Bool) (now : Nat) (tOk mOk rOk : Bool),
      (add_file st root src cfg force confirm now tOk mOk rOk).ok = false →
      (add_file st root src cfg force confirm now tOk mOk rOk).cfg = cfg) ∧
    (∀ (st : St) (root : List String) (name : String) (cfg : Option LastAction)
        (yes confirm : Bool) (now : Nat) (mOk : Bool),
      (remove_prompt st root name cfg yes confirm now mOk).ok = false →
      (remove_prompt st root name cfg yes confirm now mOk).cfg = cfg) ∧
    (∀ (st : St) (root : List String) (old new : String) (cfg : Option LastAction)
        (force confirm : Bool) (now : Nat) (tOk mOk rOk : Bool),
      (rename_prompt st root old new cfg force confirm now tOk mOk rOk).ok = false →
      (rename_prompt st root old new cfg force confirm now tOk mOk rOk).cfg = cfg) ∧
    (∀ (st : St) (cfg : Option LastAction) (now : Nat) (cwd : List String)
        (m1 m2 m3 m4 : Bool),
      (perform_undo st cfg now cwd m1 m2 m3 m4).ok = false →
      (perform_undo st cfg now cwd m1 m2 m3 m4).cfg = cfg) := by
  refine ⟨?_, ?_, ?_, ?_⟩
  · intro st root src cfg force confirm now tOk mOk rOk
    unfold add_file addFinish
    dsimp only
    repeat' split
    all_goals intro h
    all_goals first | rfl | simp at h
  · intro st root name cfg yes confirm now mOk
    unfold remove_prompt
    dsimp only
    repeat' split
    all_goals intro h
    all_goals first | rfl | simp at h
  · intro st root old new cfg force confirm now tOk mOk rOk
    unfold rename_prompt renameFinish
    dsimp only
    repeat' split
    all_goals intro h
    all_goals first | rfl | simp at h
  · intro st cfg now cwd m1 m2 m3 m4
    unfold perform_undo undoAddSrc undoAddFallback
    dsimp only
    repeat' split
    all_goals intro h
    all_goals first | rfl | simp at h

/-- Witness for C10: concrete failing invocations of all four operations
(missing source, missing prompt, missing old prompt, empty log) leave the
config — holding a remove entry for the mutations — unchanged. -/
theorem failure_preserves_config_witness :
    (add_file ⟨[], []⟩ ["r"] ["s", "x"] (some (mkRemoveLA ["r", "d"] ["r", ".trash", "1_d"]))
        false false 5 true true true).cfg =
      some (mkRemoveLA ["r", "d"] ["r", ".trash", "1_d"]) ∧
    (remove_prompt ⟨[], []⟩ ["r"] "x" (some (mkRemoveLA ["r", "d"] ["r", ".trash", "1_d"]))
        true false 5 true).cfg =
      some (mkRemoveLA ["r", "d"] ["r", ".trash", "1_d"]) ∧
    (rename_prompt ⟨[], []⟩ ["r"] "x" "y" (some (mkRemoveLA ["r", "d"] ["r", ".trash", "1_d"]))
        true false 5 true true true).cfg =
      some (mkRemoveLA ["r", "d"] ["r", ".trash", "1_d"]) ∧
    (perform_undo ⟨[], []⟩ none 5 ["cwd"] true true true true).cfg = none :=
  ⟨failure_preserves_config.1 ⟨[], []⟩ ["r"] ["s", "x"]
      (some (mkRemoveLA ["r", "d"] ["r", ".trash", "1_d"])) false false 5 true true true
      (by decide),
   failure_preserves_config.2.1 ⟨[], []⟩ ["r"] "x"
      (some (mkRemoveLA ["r", "d"] ["r", ".trash", "1_d"])) true false 5 true (by decide),
   failure_preserves_config.2.2.1 ⟨[], []⟩ ["r"] "x" "y"
      (some (mkRemoveLA ["r", "d"] ["r", ".trash", "1_d"])) true false 5 true true true
      (by decide),
   failure_preserves_config.2.2.2 ⟨[], []⟩ none 5 ["cwd"] true true true true (by decide)⟩
